import Mathlib

/-!
A shallow embedding of `src/ndvi_analysis.py`, an NDVI time-series script.

The script is a linear pipeline: build a filtered Sentinel-2 image
collection, map a band-math NDVI transform over it, reduce each image to a
spatial mean over the area of interest, materialize the per-image
`{NDVI, date}` records client-side, drop records with a missing value,
sort by date, and render/save a line chart.

Modelling conventions:
* pixel rasters are functions `P → ℚ` over an abstract pixel type `P`;
  band arithmetic is pointwise rational arithmetic;
* timestamps (`system:time_start`) are natural numbers, milliseconds since
  the Unix epoch;
* missing reduction values (`None` in Python) are `Option.none`;
* `df.sort_values(by := Date)` is modelled by a comparison sort on the date
  key (`List.insertionSort`).  Only sortedness and being a permutation are
  used in the theorems about it: those hold for every sorting algorithm the
  tabular library may pick.  Order of equal keys is NOT relied upon,
  because the library default (quicksort) does not document stability;
* the remote service calls (`filterDate`, `filterBounds`, `filter`,
  `reduceRegion`) are modelled from their documented API contracts, since
  their implementation lives outside this repository.  In particular
  `filterDate(start, end)` retains images with
  `start ≤ t < end` — the start is inclusive and the end is EXCLUSIVE per
  the `ee.Filter.date` documentation — and a calendar-date string denotes
  midnight UTC of that day.
-/

/-- One materialized per-image reduction record, as produced by
`reduce_region_mean` and returned by `getInfo()`: an optional spatial-mean
NDVI value and the image timestamp (ms since epoch).  Mirrors
`ee.Feature(None, {'NDVI': mean_dict.get('NDVI'), 'date': image.get('system:time_start')})`
(src/ndvi_analysis.py line 43). -/
structure FeatureRecord where
  ndvi : Option ℚ
  date : ℕ
deriving DecidableEq, Repr

/-- The client-side accumulation loop (src/ndvi_analysis.py lines 49-56):
walk the feature list in order and, whenever the NDVI value is not `None`,
append the date to `dates` and the value to `ndvi_values`. -/
def buildLists : List FeatureRecord → List ℕ × List ℚ
  | [] => ([], [])
  | f :: fs =>
      let rest := buildLists fs
      match f.ndvi with
      | some v => (f.date :: rest.1, v :: rest.2)
      | none => rest

/-- The rows of `pd.DataFrame({"Date": dates, "NDVI": ndvi_values})`
(src/ndvi_analysis.py line 58): the two parallel lists zipped into
(date, value) rows. -/
def dfRows (fs : List FeatureRecord) : List (ℕ × ℚ) :=
  List.zip (buildLists fs).1 (buildLists fs).2

/-- Row comparison key used by `df.sort_values(by='Date')`: compare rows by
their date component. -/
def rowLe (a b : ℕ × ℚ) : Prop := a.1 ≤ b.1

instance : DecidableRel rowLe := fun a b => inferInstanceAs (Decidable (a.1 ≤ b.1))

instance : IsTotal (ℕ × ℚ) rowLe := ⟨fun a b => Nat.le_total a.1 b.1⟩

instance : IsTrans (ℕ × ℚ) rowLe := ⟨fun _ _ _ => Nat.le_trans⟩

/-- `df.sort_values(by='Date')` (src/ndvi_analysis.py line 59), modelled as
a comparison sort on the date key.  The theorems below use only that the
result is sorted and a permutation of the input, properties shared by every
sort kind the tabular library offers; the order of equal dates is never
used (the library default quicksort does not document a tie order). -/
def sortRows (rows : List (ℕ × ℚ)) : List (ℕ × ℚ) :=
  List.insertionSort rowLe rows

/-- Result assembly (spec §4 "Result assembly"): the filter loop followed by
the sort, producing the final result table. -/
def assemble (fs : List FeatureRecord) : List (ℕ × ℚ) :=
  sortRows (dfRows fs)

/-- The rendered line chart (src/ndvi_analysis.py lines 62-67): data points
(date on X, NDVI on Y) plus the fixed title and axis labels. -/
structure Chart where
  points : List (ℕ × ℚ)
  title : String
  xlabel : String
  ylabel : String
deriving DecidableEq, Repr

/-- Rendering step: `plt.plot(df['Date'], df['NDVI'], ...)` with the fixed
title/labels.  A total function of the result table: the client-side code
has no conditional failure path, and plotting an empty series is a no-op,
not an error. -/
def renderChart (rows : List (ℕ × ℚ)) : Chart :=
  { points := rows
    title := "Série Temporal de NDVI para a Área de Interesse (Pelotas, RS)"
    xlabel := "Data"
    ylabel := "NDVI" }

/-- Observable side effects of the tail of the script
(src/ndvi_analysis.py lines 69-72): saving the figure to a file, showing
the interactive window, printing a line to stdout. -/
inductive Effect where
  | saveFig : String → Effect
  | showPlot : Effect
  | printLine : String → Effect
deriving DecidableEq, Repr

/-- The confirmation message printed on success (src/ndvi_analysis.py
line 72). -/
def confirmationMessage : String :=
  "Análise de NDVI concluída e gráfico salvo como 'ndvi_time_series.png'"

/-- The effect trace of the output stage, in program order:
`plt.savefig('ndvi_time_series.png')`, `plt.show()`, `print(...)`. -/
def renderEffects : List Effect :=
  [Effect.saveFig "ndvi_time_series.png", Effect.showPlot,
    Effect.printLine confirmationMessage]

/-- Whether an effect persists state beyond the process: only writing a
file does (showing a window and printing to stdout do not). -/
def persistsState : Effect → Bool
  | Effect.saveFig _ => true
  | Effect.showPlot => false
  | Effect.printLine _ => false

/-- A remote image, abstracted over a pixel type `P`: an ordered list of
named bands (each a rational-valued raster), the `system:time_start`
property in ms since epoch, the `CLOUDY_PIXEL_PERCENTAGE` property, and the
remote-evaluated predicate "this image's footprint intersects the AOI"
(the geometric test behind `filterBounds(aoi)` runs on the server, so it is
carried here as a precomputed Boolean). -/
structure EEImage (P : Type) where
  bands : List (String × (P → ℚ))
  timeStart : ℕ
  cloudyPixelPercentage : ℚ
  intersectsAoi : Bool

/-- `image.select(name)`: the raster of the named band, or failure when the
band is absent (a remote-service error in the real API). -/
def select {P : Type} (img : EEImage P) (name : String) : Option (P → ℚ) :=
  List.lookup name img.bands

/-- Pointwise band subtraction (`ee.Image.subtract`). -/
def rasterSub {P : Type} (a b : P → ℚ) : P → ℚ := fun p => a p - b p

/-- Pointwise band addition (`ee.Image.add`). -/
def rasterAdd {P : Type} (a b : P → ℚ) : P → ℚ := fun p => a p + b p

/-- Pointwise band division (`ee.Image.divide`). -/
def rasterDiv {P : Type} (a b : P → ℚ) : P → ℚ := fun p => a p / b p

/-- `calculate_ndvi` (src/ndvi_analysis.py lines 26-31):
select `B4` (Red) and `B8` (NIR), compute
`nir.subtract(red).divide(nir.add(red))`, rename it `NDVI`, append it with
`addBands`, and keep the original image's `system:time_start` via
`copyProperties`.  Fails (remote-service error) when a named band is
absent. -/
def calculate_ndvi {P : Type} (img : EEImage P) : Option (EEImage P) :=
  (select img "B4").bind fun red =>
    (select img "B8").map fun nir =>
      { img with
          bands := img.bands ++
            [("NDVI", rasterDiv (rasterSub nir red) (rasterAdd nir red))] }

/-- Gregorian leap-year rule, used to interpret the calendar-date strings
of the configuration as UTC instants. -/
def isLeapYear (y : ℕ) : Bool :=
  (y % 4 == 0 && y % 100 != 0) || y % 400 == 0

/-- Days in a Gregorian year. -/
def daysInYear (y : ℕ) : ℕ := if isLeapYear y then 366 else 365

/-- Days in a Gregorian month. -/
def daysInMonth (y m : ℕ) : ℕ :=
  if m == 2 then (if isLeapYear y then 29 else 28)
  else if m == 4 || m == 6 || m == 9 || m == 11 then 30
  else 31

/-- Days from 1970-01-01 to the given Gregorian date (UTC). -/
def epochDays (y m d : ℕ) : ℕ :=
  ((List.range (y - 1970)).map (fun i => daysInYear (1970 + i))).sum +
    ((List.range (m - 1)).map (fun i => daysInMonth y (1 + i))).sum + (d - 1)

/-- Milliseconds since epoch of midnight UTC of the given date: how the
remote API interprets a `YYYY-MM-DD` date string. -/
def epochMs (y m d : ℕ) : ℕ := epochDays y m d * 86400000

/-- Value of a decimal digit character. -/
def digitVal (c : Char) : Option ℕ :=
  if c.isDigit then some (c.toNat - 48) else none

/-- Read a character list as a decimal number, failing on a non-digit. -/
def natOfDigits (cs : List Char) : Option ℕ :=
  cs.foldl (fun acc c => acc.bind (fun n => (digitVal c).map (fun d => 10 * n + d)))
    (some 0)

/-- Parse a `YYYY-MM-DD` date string into (year, month, day). -/
def parseDate (s : String) : Option (ℕ × ℕ × ℕ) :=
  match (s.toList.splitOn (Char.ofNat 45)).map natOfDigits with
  | [some y, some m, some d] => some (y, m, d)
  | _ => none

/-- Milliseconds since epoch denoted by a date string (midnight UTC). -/
def dateMs (s : String) : Option ℕ :=
  (parseDate s).map (fun t => epochMs t.1 t.2.1 t.2.2)

/-- `start_date` (src/ndvi_analysis.py line 15). -/
def start_date : String := "2020-01-01"

/-- `end_date` (src/ndvi_analysis.py line 16). -/
def end_date : String := "2023-12-31"

/-- Center of the AOI (src/ndvi_analysis.py line 12):
`ee.Geometry.Point(-52.3448, -31.7668)`, as (longitude, latitude). -/
def aoiCenter : ℚ × ℚ := (-52.3448, -31.7668)

/-- Buffer radius of the AOI in meters (src/ndvi_analysis.py line 12). -/
def aoiRadius : ℚ := 5000

/-- The timestamp bound denoted by `start_date` (ms since epoch; the parse
of a well-formed constant cannot fail, the default is never taken). -/
def startMs : ℕ := (dateMs start_date).getD 0

/-- The timestamp bound denoted by `end_date`. -/
def endMs : ℕ := (dateMs end_date).getD 0

/-- `filterDate(startStr, endStr)` on a collection.  Modelled from the
documented `ee.Filter.date` contract: the start is inclusive and the end
is EXCLUSIVE, i.e. the retained images are those with
`startMillis ≤ system:time_start < endMillis`. -/
def filterDate {P : Type} (startMillis endMillis : ℕ) (c : List (EEImage P)) :
    List (EEImage P) :=
  c.filter (fun i => decide (startMillis ≤ i.timeStart ∧ i.timeStart < endMillis))

/-- `filterBounds(aoi)`: keep the images whose footprint intersects the
AOI (a predicate evaluated by the remote service). -/
def filterBounds {P : Type} (c : List (EEImage P)) : List (EEImage P) :=
  c.filter (fun i => i.intersectsAoi)

/-- `.filter(ee.Filter.lt('CLOUDY_PIXEL_PERCENTAGE', 10))`. -/
def filterCloud {P : Type} (c : List (EEImage P)) : List (EEImage P) :=
  c.filter (fun i => decide (i.cloudyPixelPercentage < 10))

/-- The collection query (src/ndvi_analysis.py lines 20-23): date filter,
then bounds filter, then cloud-cover filter, applied to the raw dataset. -/
def collectionQuery {P : Type} (startMillis endMillis : ℕ)
    (c : List (EEImage P)) : List (EEImage P) :=
  filterCloud (filterBounds (filterDate startMillis endMillis c))

/-- `reduce_region_mean` (src/ndvi_analysis.py lines 37-43), parameterized
by the remote spatial-mean reducer `regionMean` (mean of a raster over the
AOI, or `none` when no valid pixels fall in the region): look up the NDVI
band, reduce it, and pair the result with the image timestamp. -/
def reduce_region_mean {P : Type} (regionMean : (P → ℚ) → Option ℚ)
    (img : EEImage P) : FeatureRecord :=
  { ndvi := (List.lookup "NDVI" img.bands).bind regionMean
    date := img.timeStart }

/-- Constant Red (`B4`) raster of the synthetic band-math scenario. -/
def red100 : Unit → ℚ := fun _ => 100

/-- Constant NIR (`B8`) raster of the synthetic band-math scenario. -/
def nir300 : Unit → ℚ := fun _ => 300

/-- The synthetic image of the band-math unit scenario: constant Red = 100
and NIR = 300 over its full extent (a one-pixel extent suffices for
constant rasters). -/
def syntheticImage : EEImage Unit :=
  { bands := [("B4", red100), ("B8", nir300)]
    timeStart := 1600000000000
    cloudyPixelPercentage := 0
    intersectsAoi := true }

/-- The NDVI raster the transform derives for `syntheticImage`. -/
def syntheticNdvi : Unit → ℚ :=
  rasterDiv (rasterSub nir300 red100) (rasterAdd nir300 red100)

/-- The image `calculate_ndvi` produces from `syntheticImage`. -/
def syntheticResult : EEImage Unit :=
  { syntheticImage with
      bands := syntheticImage.bands ++ [("NDVI", syntheticNdvi)] }

/-- A cloud-free image inside the AOI acquired at 12:00 UTC on the end
date 2023-12-31 — i.e. an image dated on the configured end date itself. -/
def endDateImage : EEImage Unit :=
  { bands := []
    timeStart := epochMs 2023 12 31 + 43200000
    cloudyPixelPercentage := 0
    intersectsAoi := true }

/-- The accumulation loop is the filter-map keeping exactly the records with
a non-missing value, paired as (date, value). -/
theorem dfRows_eq_filterMap (fs : List FeatureRecord) :
    dfRows fs = fs.filterMap (fun f => f.ndvi.map (fun v => (f.date, v))) := by
  induction fs with
  | nil => rfl
  | cons f fs ih =>
      cases h : f.ndvi with
      | none =>
          simp only [dfRows, buildLists, h, List.filterMap_cons, Option.map_none]
          exact ih
      | some v =>
          simp only [dfRows, buildLists, h, List.filterMap_cons, Option.map_some,
            List.zip_cons_cons]
          exact congrArg _ ih

/-- Values of the configured timestamp bounds: `start_date = '2020-01-01'`
denotes 1577836800000 ms and `end_date = '2023-12-31'` denotes
1703980800000 ms since epoch. -/
theorem startMs_endMs_val : startMs = 1577836800000 ∧ endMs = 1703980800000 :=
  ⟨rfl, rfl⟩

/-- C1: for every input sequence of per-image (timestamp, value-or-missing)
reduction records, the assembled result table is sorted by timestamp in
non-decreasing order, and every row of it comes from an input record whose
value was present (so no row's value is missing). -/
theorem spec_c1 (fs : List FeatureRecord) :
    List.Sorted rowLe (assemble fs) ∧
      ∀ row ∈ assemble fs, (⟨some row.2, row.1⟩ : FeatureRecord) ∈ fs := by
  refine ⟨List.sorted_insertionSort rowLe (dfRows fs), ?_⟩
  intro row hrow
  have hmem : row ∈ dfRows fs :=
    (List.perm_insertionSort rowLe (dfRows fs)).subset hrow
  rw [dfRows_eq_filterMap] at hmem
  simp only [List.mem_filterMap, Option.map_eq_some'] at hmem
  obtain ⟨f, hf, v, hv, hrow_eq⟩ := hmem
  subst hrow_eq
  obtain ⟨nd, dt⟩ := f
  simp only at hv
  subst hv
  exact hf

/-- Witness for C1 at the concrete record list `[⟨some (1/2), 7⟩]`. -/
theorem spec_c1_witness :
    List.Sorted rowLe (assemble [⟨some (1/2), 7⟩]) ∧
      (⟨some (1/2), 7⟩ : FeatureRecord) ∈ [(⟨some (1/2), 7⟩ : FeatureRecord)] :=
  ⟨(spec_c1 [⟨some (1/2), 7⟩]).1,
    (spec_c1 [⟨some (1/2), 7⟩]).2 (7, 1/2)
      (List.mem_singleton_self ((7 : ℕ), (1 / 2 : ℚ)))⟩

/-- C2: on the four-record input (t1, 0.42), (t3, missing), (t2, 0.55),
(t4, 0.10), given in that order with t1 < t2 < t3 < t4, assembly drops the
missing record and sorts the rest ascending by timestamp, yielding exactly
[(t1, 0.42), (t2, 0.55), (t4, 0.10)]. -/
theorem spec_c2 (t1 t2 t3 t4 : ℕ) (h12 : t1 < t2) (h23 : t2 < t3)
    (h34 : t3 < t4) :
    assemble [⟨some 0.42, t1⟩, ⟨none, t3⟩, ⟨some 0.55, t2⟩, ⟨some 0.10, t4⟩] =
      [(t1, 0.42), (t2, 0.55), (t4, 0.10)] := by
  have hsorted : List.Sorted rowLe [(t1, 0.42), (t2, 0.55), (t4, 0.10)] := by
    have h12le : t1 ≤ t2 := by omega
    have h14 : t1 ≤ t4 := by omega
    have h24 : t2 ≤ t4 := by omega
    refine List.Pairwise.cons ?_ (List.Pairwise.cons ?_ (List.pairwise_singleton _ _))
    · intro b hb
      rcases List.mem_cons.mp hb with rfl | hb2
      · exact h12le
      · obtain rfl := List.mem_singleton.mp hb2
        exact h14
    · intro b hb
      obtain rfl := List.mem_singleton.mp hb
      exact h24
  calc
    assemble [⟨some 0.42, t1⟩, ⟨none, t3⟩, ⟨some 0.55, t2⟩, ⟨some 0.10, t4⟩] =
        List.insertionSort rowLe [(t1, 0.42), (t2, 0.55), (t4, 0.10)] := rfl
    _ = [(t1, 0.42), (t2, 0.55), (t4, 0.10)] := hsorted.insertionSort_eq

/-- Witness for C2 at timestamps 1 < 2 < 3 < 4. -/
theorem spec_c2_witness :
    assemble [⟨some 0.42, 1⟩, ⟨none, 3⟩, ⟨some 0.55, 2⟩, ⟨some 0.10, 4⟩] =
      [(1, 0.42), (2, 0.55), (4, 0.10)] :=
  spec_c2 1 2 3 4 (by decide) (by decide) (by decide)

/-- C3: for every image whose Red (`B4`) and NIR (`B8`) bands are defined,
`calculate_ndvi` succeeds and appends a derived band named `NDVI` whose
value at every pixel is (NIR − Red) / (NIR + Red). -/
theorem spec_c3 {P : Type} (img : EEImage P) (red nir : P → ℚ)
    (h4 : select img "B4" = some red) (h8 : select img "B8" = some nir) :
    calculate_ndvi img =
      some { img with
              bands := img.bands ++
                [("NDVI", fun p => (nir p - red p) / (nir p + red p))] } := by
  unfold calculate_ndvi
  rw [h4, h8]
  rfl

/-- Witness for C3: on the synthetic image with constant Red = 100 and
NIR = 300, the derived band exists and equals
(300 − 100) / (300 + 100) = 0.5 at every pixel of the extent. -/
theorem spec_c3_witness :
    calculate_ndvi syntheticImage =
        some { syntheticImage with
                bands := syntheticImage.bands ++ [("NDVI", syntheticNdvi)] } ∧
      syntheticNdvi () = 0.5 :=
  ⟨spec_c3 syntheticImage red100 nir300 rfl rfl, by
    norm_num [syntheticNdvi, rasterDiv, rasterSub, rasterAdd, red100, nir300]⟩

/-- C7: whenever `calculate_ndvi` maps an input image to a result, the
result keeps the original timestamp property and all other metadata, its
band list is the original one unchanged plus exactly one extra band, the
extra band is named `NDVI`, and the extra band's raster is determined
purely by the two selected input rasters (Red = `B4`, NIR = `B8`). -/
theorem spec_c7 {P : Type} (img img2 : EEImage P) (red nir : P → ℚ)
    (h4 : select img "B4" = some red) (h8 : select img "B8" = some nir)
    (h : calculate_ndvi img = some img2) :
    img2.timeStart = img.timeStart ∧
      img2.cloudyPixelPercentage = img.cloudyPixelPercentage ∧
      img2.intersectsAoi = img.intersectsAoi ∧
      img2.bands.take img.bands.length = img.bands ∧
      img2.bands.length = img.bands.length + 1 ∧
      img2.bands.getLast? =
        some ("NDVI", rasterDiv (rasterSub nir red) (rasterAdd nir red)) := by
  unfold calculate_ndvi at h
  rw [h4, h8] at h
  have h2 := Option.some.inj h
  subst h2
  refine ⟨rfl, rfl, rfl, ?_, ?_, ?_⟩
  · exact List.take_left img.bands _
  · simp
  · simp

/-- Witness for C7 at the synthetic constant image. -/
theorem spec_c7_witness :
    syntheticResult.timeStart = syntheticImage.timeStart ∧
      syntheticResult.cloudyPixelPercentage =
        syntheticImage.cloudyPixelPercentage ∧
      syntheticResult.intersectsAoi = syntheticImage.intersectsAoi ∧
      syntheticResult.bands.take syntheticImage.bands.length =
        syntheticImage.bands ∧
      syntheticResult.bands.length = syntheticImage.bands.length + 1 ∧
      syntheticResult.bands.getLast? =
        some ("NDVI", rasterDiv (rasterSub nir300 red100) (rasterAdd nir300 red100)) :=
  spec_c7 syntheticImage syntheticResult red100 nir300 rfl rfl rfl

/-- C4 counterexample: a cloud-free image inside the AOI whose acquisition
instant falls on the configured end date 2023-12-31 (its epoch-day is that
of the end date) is NOT selected by the collection query: `filterDate`
treats the end bound as exclusive, so the claim that the interval is
inclusive on both ends fails on this input. -/
theorem spec_c4_counterexample :
    endDateImage.timeStart / 86400000 = epochDays 2023 12 31 ∧
      endDateImage.intersectsAoi = true ∧
      endDateImage.cloudyPixelPercentage < 10 ∧
      collectionQuery startMs endMs [endDateImage] = [] :=
  ⟨by decide, rfl, by decide, rfl⟩

/-- C4 (amended): the collection query selects exactly the images that pass
the spatial and cloud filters and whose timestamps satisfy
startMs ≤ t < endMs — the date interval is inclusive of the start bound and
EXCLUSIVE of the end bound, so images dated on the end date itself are not
included. -/
theorem spec_c4 {P : Type} (c : List (EEImage P)) (i : EEImage P) :
    i ∈ collectionQuery startMs endMs c ↔
      i ∈ c ∧ startMs ≤ i.timeStart ∧ i.timeStart < endMs ∧
        i.intersectsAoi = true ∧ i.cloudyPixelPercentage < 10 := by
  simp only [collectionQuery, filterCloud, filterBounds, filterDate,
    List.mem_filter, decide_eq_true_eq]
  tauto

/-- C8 counterexample: swapping the configured dates (start = 2023-12-31,
end = 2020-01-01) is not rejected anywhere: the query evaluates normally
and yields the empty collection, so the claim that such a configuration
"is rejected" fails. -/
theorem spec_c8_counterexample :
    collectionQuery endMs startMs [endDateImage] = [] ∧ startMs < endMs :=
  ⟨rfl, by decide⟩

/-- C8 (amended): the fixed configuration satisfies the invariant — the
start instant is at most the end instant and the buffer radius is
strictly positive — but a configuration with start after end is NOT
rejected: the script performs no validation, and the date filter of such a
query simply selects no image. -/
theorem spec_c8 :
    startMs ≤ endMs ∧ 0 < aoiRadius ∧
      ∀ (P : Type) (c : List (EEImage P)), filterDate endMs startMs c = [] := by
  refine ⟨by decide, by norm_num [aoiRadius], ?_⟩
  intro P c
  refine List.filter_eq_nil_iff.mpr ?_
  intro i _
  simp only [decide_eq_true_eq, not_and, not_lt]
  intro hge
  have h1 : startMs = 1577836800000 := startMs_endMs_val.1
  have h2 : endMs = 1703980800000 := startMs_endMs_val.2
  omega

/-- C6: an empty materialized record sequence yields a result table with
zero rows, and rendering it is an ordinary total computation producing the
empty chart with the fixed title and labels (no error path exists). -/
theorem spec_c6 :
    assemble [] = [] ∧
      renderChart (assemble []) =
        { points := []
          title := "Série Temporal de NDVI para a Área de Interesse (Pelotas, RS)"
          xlabel := "Data"
          ylabel := "NDVI" } :=
  ⟨rfl, rfl⟩

/-- C9: among the observable effects of the output stage, exactly one
persists state — writing the chart to the fixed relative filename
`ndvi_time_series.png` — and a confirmation message is printed. -/
theorem spec_c9 :
    renderEffects.filter persistsState =
        [Effect.saveFig "ndvi_time_series.png"] ∧
      Effect.printLine confirmationMessage ∈ renderEffects :=
  ⟨rfl, by simp [renderEffects]⟩

/-- C10: the assembled result table is exactly a permutation of the
non-missing input records, each row pairing a record's original timestamp
with its original value: nothing is dropped besides missing values,
duplicated, or invented. -/
theorem spec_c10 (fs : List FeatureRecord) :
    (assemble fs).Perm
      (fs.filterMap (fun f => f.ndvi.map (fun v => (f.date, v)))) := by
  rw [← dfRows_eq_filterMap]
  exact List.perm_insertionSort rowLe (dfRows fs)
